import Mathlib

/-!
Shallow embedding of the auth-rust authentication service.

The Rust source is translated into executable Lean definitions:
* `errors.rs`            → `AuthError`, `statusCode`
* `models/validation.rs` → `validate_email`, `validate_username`, `validate_password`
* `auth/crypto.rs`       → `hash_password`, `verify_password` (the external argon2
  primitive is modelled symbolically: an encoded hash is a salt/password pair)
* `auth/jwt.rs`          → `create_token`, `validate_token` (the external
  jsonwebtoken primitive is modelled symbolically: a signature is the pair of
  the secret and the signed claims)
* `db/memory_connection.rs` → `create`, `find_by_email`, `find_by_username`,
  `find_by_id` over an association-list model of `HashMap<String, User>`
* `handlers/auth_handler.rs` → `register_handler`, `login_handler`

Rust strings are modelled as Lean `String` (a list of unicode scalar values);
`str::len`, which counts UTF-8 bytes, is modelled exactly by `rustStrLen`.
The Unicode-wide character-class tests of the Rust standard library
(`char::is_uppercase`, `is_lowercase`, `is_numeric`), whose Unicode tables
live outside this repository, are taken as explicit function parameters in
`passwordErrorsWith`/`validate_passwordWith`; the class-sensitive theorems
hold for every instantiation, hence for the real tables, and concrete
executions use the ASCII fragment, which agrees with them on ASCII strings.
External effects (the random salt, the random v4 UUID, each `Utc::now()`
read — including the repository `create`'s two separate reads) are passed to
each operation as explicit arguments.
-/

set_option maxRecDepth 10000

deriving instance DecidableEq for Except

namespace AuthRust

/-- Error taxonomy of `errors.rs` (`enum AuthError`). -/
inductive AuthError where
  | InvalidCredentials
  | UserAlreadyExists
  | UserNotFound
  | InvalidToken
  | TokenExpired
  | DatabaseError
  | InternalError
  | ValidationError (msg : String)
deriving DecidableEq, Repr

/-- HTTP status assigned by `impl IntoResponse for AuthError` in `errors.rs`. -/
def statusCode : AuthError → Nat
  | .InvalidCredentials => 401
  | .UserAlreadyExists => 409
  | .UserNotFound => 404
  | .InvalidToken => 401
  | .TokenExpired => 401
  | .DatabaseError => 500
  | .InternalError => 500
  | .ValidationError _ => 400

/-- Number of UTF-8 bytes of one scalar value, as Rust encodes it. -/
def rustCharLen (c : Char) : Nat :=
  if c.val < 0x80 then 1
  else if c.val < 0x800 then 2
  else if c.val < 0x10000 then 3
  else 4

/-- Rust `str::len`: the UTF-8 byte length of the string. -/
def rustStrLen (s : String) : Nat :=
  (s.data.map rustCharLen).sum

/-- Splits a character list at every occurrence of `sep`, mirroring
`str::split` with a one-character pattern (always at least one group). -/
def splitAtChar (sep : Char) : List Char → List (List Char)
  | [] => [[]]
  | c :: cs =>
    let r := splitAtChar sep cs
    if c = sep then [] :: r
    else
      match r with
      | [] => [[c]]
      | g :: gs => (c :: g) :: gs

/-- Character class `[a-zA-Z0-9._%+-]` of the email regex's local part. -/
def isLocalChar (c : Char) : Bool :=
  c.isAlpha || c.isDigit || c = '.' || c = '_' || c = '%' || c = '+' || c = '-'

/-- Character class `[a-zA-Z0-9.-]` of the email regex's domain part. -/
def isDomainChar (c : Char) : Bool :=
  c.isAlpha || c.isDigit || c = '.' || c = '-'

/-- Splits a character list around its last dot: `some (before, after)` when
a dot occurs, `none` otherwise. -/
def splitLastDot : List Char → Option (List Char × List Char)
  | [] => none
  | c :: cs =>
    match splitLastDot cs with
    | some (pre, suf) => some (c :: pre, suf)
    | none => if c = '.' then some ([], cs) else none

/-- Matcher for the anchored email regex of `validate_email`:
`^[a-zA-Z0-9._%+-]+@[a-zA-Z0-9.-]+\.[a-zA-Z]\x7b2,\x7d$`.
A match is a nonempty local part over its class, one `@`, a nonempty domain
over its class, and after the domain's last dot a TLD of at least two
letters. -/
def emailRegexMatch (email : String) : Bool :=
  match splitAtChar '@' email.data with
  | [lp, rest] =>
    !lp.isEmpty && lp.all isLocalChar &&
      (match splitLastDot rest with
       | some (dom, tld) =>
         !dom.isEmpty && dom.all isDomainChar &&
           decide (2 ≤ tld.length) && tld.all Char.isAlpha
       | none => false)
  | _ => false

/-- Translation of `validate_email` in `models/validation.rs`. -/
def validate_email (email : String) : Except AuthError Unit :=
  if !emailRegexMatch email then
    .error (.ValidationError "Invalid email format!")
  else if rustStrLen email > 255 then
    .error (.ValidationError "Email is to long (max 255 characters)")
  else
    .ok ()

/-- Character class `[a-zA-Z0-9]` (alphanumeric). -/
def isAlnum (c : Char) : Bool := c.isAlpha || c.isDigit

/-- Character class `[a-zA-Z0-9_-]` of the username regex's middle. -/
def isUsernameMid (c : Char) : Bool := isAlnum c || c = '_' || c = '-'

/-- Matcher for the anchored username regex of `validate_username`:
`^[a-zA-Z0-9][a-zA-Z0-9_-]*[a-zA-Z0-9]$`. -/
def usernameRegexMatch (username : String) : Bool :=
  match username.data.head?, username.data.getLast? with
  | some a, some b =>
    decide (2 ≤ username.data.length) && isAlnum a && isAlnum b &&
      (username.data.drop 1).dropLast.all isUsernameMid
  | _, _ => false

/-- Translation of `validate_username` in `models/validation.rs`. -/
def validate_username (username : String) : Except AuthError Unit :=
  if rustStrLen username < 3 then
    .error (.ValidationError "Username must be at least 3 characters long")
  else if rustStrLen username > 50 then
    .error (.ValidationError "Username is to long (max 50 characters)")
  else if !usernameRegexMatch username then
    .error (.ValidationError "Username can only contain letters, numbers, underscore and hyphen. Cannot start or end with special characters")
  else
    .ok ()

/-- The fixed special-character set of `validate_password`. -/
def specialChars : String := "!@#$%^&*()_+-=[]\x7b\x7d|;:,.<>?"

/-- The aggregated rule-violation messages of `validate_password`, in the
order the source pushes them onto its `errors` vector. The three
character-class tests are the Rust standard library's Unicode-wide
`char::is_uppercase`, `char::is_lowercase` and `char::is_numeric`; their
Unicode tables are external to this repository, so they are taken as
parameters `isUp`, `isLow`, `isNum`. -/
def passwordErrorsWith (isUp isLow isNum : Char → Bool) (password : String) : List String :=
  (if rustStrLen password < 8 then ["at least 8 characters"] else []) ++
  (if !password.data.any isUp then ["at least one uppercase letter (A-Z)"] else []) ++
  (if !password.data.any isLow then ["at least one lowercase letter (a-z)"] else []) ++
  (if !password.data.any isNum then ["at least one number (0-9)"] else []) ++
  (if !password.data.any (fun c => specialChars.data.contains c) then ["at least one special character"] else [])

/-- Rust `Vec::join` with a fixed separator `", "`. -/
def joinComma : List String → String
  | [] => ""
  | [s] => s
  | s :: rest => s ++ ", " ++ joinComma rest

/-- Translation of `validate_password` in `models/validation.rs`,
parametrized by the external Unicode character-class primitives. -/
def validate_passwordWith (isUp isLow isNum : Char → Bool) (password : String) :
    Except AuthError Unit :=
  let errors := passwordErrorsWith isUp isLow isNum password
  if !errors.isEmpty then
    .error (.ValidationError ("Password must contain: " ++ joinComma errors))
  else
    .ok ()

/-- `passwordErrorsWith` instantiated at the ASCII fragment of the external
primitives (which agrees with them on ASCII strings); used only for concrete
executions. -/
def passwordErrors (password : String) : List String :=
  passwordErrorsWith Char.isUpper Char.isLower Char.isDigit password

/-- `validate_passwordWith` at the ASCII-fragment instantiation, the
executable form the handler model runs on. Theorems that are sensitive to
the character classes are stated over `validate_passwordWith` for arbitrary
primitives, so they hold in particular for the real Unicode tables. -/
def validate_password (password : String) : Except AuthError Unit :=
  validate_passwordWith Char.isUpper Char.isLower Char.isDigit password

example : validate_email "user@example.com" = .ok () := by decide
example : validate_email "test.user@company.co.uk" = .ok () := by decide
example : validate_email "name123@provider.org" = .ok () := by decide
example : (validate_email "invalid").isOk = false := by decide
example : (validate_email "@example.com").isOk = false := by decide
example : (validate_email "user@").isOk = false := by decide
example : (validate_email "user@com").isOk = false := by decide

example : validate_username "john_doe" = .ok () := by decide
example : validate_username "user123" = .ok () := by decide
example : validate_username "test-user" = .ok () := by decide
example : (validate_username "ab").isOk = false := by decide
example : (validate_username "_user").isOk = false := by decide
example : (validate_username "user_").isOk = false := by decide
example : (validate_username "user name").isOk = false := by decide

example : validate_password "Senha123!" = .ok () := by decide
example : validate_password "MyP@ssw0rd" = .ok () := by decide
example : validate_password "Str0ng#Pass" = .ok () := by decide
example : (validate_password "weak").isOk = false := by decide
example : (validate_password "noupppercase1!").isOk = false := by decide
example : (validate_password "NOLOWERCASE1!").isOk = false := by decide
example : (validate_password "NoNumbers!").isOk = false := by decide
example : (validate_password "NoSpecial123").isOk = false := by decide

/-- Symbolic model of an argon2 PHC encoded hash string (`auth/crypto.rs`).
`enc salt pwd` stands for the well-formed encoded string produced by hashing
`pwd` with salt `salt`; `raw s` stands for any other string, which
`PasswordHash::new` fails to parse. -/
inductive HashStr where
  | enc (salt : String) (pwd : String)
  | raw (s : String)
deriving DecidableEq, Repr

/-- Error of the external `argon2::password_hash` library, collapsed to the
one case the handlers ever observe (parse/verification machinery failure). -/
inductive HashError where
  | parseError
deriving DecidableEq, Repr

/-- Translation of `hash_password` in `auth/crypto.rs`. The external argon2
primitive is modelled symbolically, so the hash is the salt/password pair and
the fallible library call never fails; the `OsRng`-generated salt is passed
explicitly. -/
def hash_password (password : String) (salt : String) : HashStr :=
  .enc salt password

/-- Translation of `verify_password` in `auth/crypto.rs`: parsing a malformed
encoded hash is an error; a parsed hash verifies exactly the hashed
password. -/
def verify_password (hash : HashStr) (password : String) : Except HashError Bool :=
  match hash with
  | .raw _ => .error .parseError
  | .enc _ pwd => .ok (pwd == password)

/-- JWT claims of `auth/jwt.rs` (`struct Claims`); timestamps are unix
seconds as produced by `chrono::DateTime::timestamp`. -/
structure Claims where
  sub : String
  exp : Int
  iat : Int
deriving DecidableEq, Repr

/-- Symbolic model of a signed JWT: the payload together with an HMAC
signature, modelled as the pair of the signing secret and the signed
claims. -/
structure Token where
  claims : Claims
  sig : String × Claims
deriving DecidableEq, Repr

/-- Error cases of `jsonwebtoken::decode` observed by `validate_token`. -/
inductive JwtError where
  | invalidSignature
  | expiredSignature
deriving DecidableEq, Repr

/-- Translation of `create_token` in `auth/jwt.rs`: issued-at is the current
time, expiry is issued-at plus `Duration::hours(24)` (86400 seconds), and the
claims are signed with the secret. -/
def create_token (user_id : String) (secret : String) (now : Int) : Token :=
  let expire := now + 24 * 3600
  let claims : Claims := { sub := user_id, exp := expire, iat := now }
  { claims := claims, sig := (secret, claims) }

/-- Translation of `validate_token` in `auth/jwt.rs`: `jsonwebtoken::decode`
checks the signature against the secret and the expiry against the current
time (per the spec of the external library: signature mismatch and expired
token are its two outcomes here). -/
def validate_token (token : Token) (secret : String) (now : Int) : Except JwtError Claims :=
  if token.sig ≠ (secret, token.claims) then .error .invalidSignature
  else if now > token.claims.exp then .error .expiredSignature
  else .ok token.claims

/-- The stored user record of `models/user.rs` (`struct User`). The `Uuid` is
modelled as a `Nat` drawn by the caller's RNG oracle; timestamps are unix
seconds. -/
structure User where
  id : Nat
  username : String
  email : String
  password_hash : HashStr
  created_at : Int
  updated_at : Int
  is_active : Bool
deriving DecidableEq, Repr

/-- `struct CreateUser` of `models/user.rs`. -/
structure CreateUser where
  username : String
  email : String
  password : String
deriving DecidableEq, Repr

/-- The backing store of `InMemoryUserRepository`: `HashMap<String, User>`
modelled as an association list keyed by the UUID's string form. -/
abbrev UserMap := List (String × User)

/-- Removes every binding of `key`, the helper for `HashMap::insert`'s
replace-on-collision behaviour. -/
def eraseKey : UserMap → String → UserMap
  | [], _ => []
  | (k, v) :: rest, key =>
    if k = key then eraseKey rest key else (k, v) :: eraseKey rest key

/-- `HashMap::insert`: binds `key` to `v`, replacing any previous binding. -/
def hmInsert (m : UserMap) (key : String) (v : User) : UserMap :=
  (key, v) :: eraseKey m key

/-- `HashMap::get`: the binding of `key`, if any. -/
def hmGet : UserMap → String → Option User
  | [], _ => none
  | (k, v) :: rest, key => if k = key then some v else hmGet rest key

/-- `HashMap::values`: the stored users. -/
def hmValues (m : UserMap) : List User := m.map Prod.snd

/-- Translation of `InMemoryUserRepository::create`: builds the record with a
fresh v4 UUID draw (`id`) and the source's TWO separate `Utc::now()` calls —
`created_at` from the first read `now_c` and `updated_at` from the second
read `now_u`, in call order; the two reads are not guaranteed equal. Inserts
the record under the UUID's string form and returns it. The source's
`Result` is always `Ok` for this backend. -/
def create (users : UserMap) (user : CreateUser) (password_hash : HashStr)
    (id : Nat) (now_c now_u : Int) : UserMap × User :=
  let new_user : User :=
    { id := id, username := user.username, email := user.email,
      password_hash := password_hash, created_at := now_c, updated_at := now_u,
      is_active := true }
  (hmInsert users (toString id) new_user, new_user)

/-- Translation of `InMemoryUserRepository::find_by_email`: linear search over
the stored values; the state is returned to make the frame explicit. -/
def find_by_email (users : UserMap) (email : String) : UserMap × Option User :=
  (users, (hmValues users).find? (fun u => u.email == email))

/-- Translation of `InMemoryUserRepository::find_by_username`: linear search
over the stored values. -/
def find_by_username (users : UserMap) (username : String) : UserMap × Option User :=
  (users, (hmValues users).find? (fun u => u.username == username))

/-- Translation of `InMemoryUserRepository::find_by_id`: direct lookup under
the UUID's string form. -/
def find_by_id (users : UserMap) (id : Nat) : UserMap × Option User :=
  (users, hmGet users (toString id))

/-- `struct RegisterRequest` of `models/auth.rs`. -/
structure RegisterRequest where
  username : String
  email : String
  password : String
deriving DecidableEq, Repr

/-- `struct LoginRequest` of `models/auth.rs`. -/
structure LoginRequest where
  username : String
  password : String
deriving DecidableEq, Repr

/-- `struct LoginResponse` of `models/auth.rs`. -/
structure LoginResponse where
  token : Token
deriving DecidableEq, Repr

/-- Translation of `register_handler` in `handlers/auth_handler.rs`. The
repository state is threaded explicitly; `salt` is the `OsRng` salt drawn by
`hash_password`, `id` the v4 UUID drawn by `create`, `now_c` and `now_u` the
repository's two `Utc::now()` reads, `now_t` the clock read inside
`create_token`, and `secret` the `AppState` JWT secret. The `?` on the
repository calls never errors for the in-memory backend, and the symbolic
`hash_password` never fails, so those error paths do not arise. -/
def register_handler (users : UserMap) (payload : RegisterRequest)
    (salt : String) (id : Nat) (now_c now_u now_t : Int) (secret : String) :
    UserMap × Except AuthError LoginResponse :=
  match validate_email payload.email with
  | .error e => (users, .error e)
  | .ok _ =>
  match validate_username payload.username with
  | .error e => (users, .error e)
  | .ok _ =>
  match validate_password payload.password with
  | .error e => (users, .error e)
  | .ok _ =>
  if ((find_by_email users payload.email).2).isSome then
    (users, .error .UserAlreadyExists)
  else if ((find_by_username users payload.username).2).isSome then
    (users, .error .UserAlreadyExists)
  else
    let password_hash := hash_password payload.password salt
    let res := create users
      { username := payload.username, email := payload.email,
        password := payload.password }
      password_hash id now_c now_u
    (res.1, .ok { token := create_token (toString res.2.id) secret now_t })

/-- Translation of `login_handler` in `handlers/auth_handler.rs`. -/
def login_handler (users : UserMap) (payload : LoginRequest)
    (secret : String) (now : Int) : UserMap × Except AuthError LoginResponse :=
  match (find_by_username users payload.username).2 with
  | none => (users, .error .InvalidCredentials)
  | some user =>
    match verify_password user.password_hash payload.password with
    | .error _ => (users, .error .InternalError)
    | .ok is_valid =>
      if !is_valid then (users, .error .InvalidCredentials)
      else (users, .ok { token := create_token (toString user.id) secret now })

/-- Decides the uniqueness invariant of spec §3: no two stored users share a
username or an email. -/
def noDupUsersB : UserMap → Bool
  | [] => true
  | (_, u) :: rest =>
    rest.all (fun p => p.2.username != u.username && p.2.email != u.email) &&
      noDupUsersB rest

/-- The password rules exactly as the claim words them: at least 8
CHARACTERS, one uppercase A-Z, one lowercase a-z, one digit 0-9, one
character of the fixed special set. -/
def claimPasswordOk (p : String) : Prop :=
  8 ≤ p.data.length ∧
  (∃ c ∈ p.data, 'A' ≤ c ∧ c ≤ 'Z') ∧
  (∃ c ∈ p.data, 'a' ≤ c ∧ c ≤ 'z') ∧
  (∃ c ∈ p.data, '0' ≤ c ∧ c ≤ '9') ∧
  (∃ c ∈ p.data, c ∈ specialChars.data)

instance (p : String) : Decidable (claimPasswordOk p) := by
  unfold claimPasswordOk; infer_instance

/-- Sample stored user with a well-formed encoded hash, for concrete
instances. -/
def bobUser : User :=
  { id := 1, username := "bob", email := "bob@example.com", password_hash := HashStr.enc "s" "Str0ng#Pass", created_at := 0, updated_at := 0, is_active := true }

/-- Sample stored user whose encoded hash string is malformed. -/
def bobUserBadHash : User :=
  { id := 1, username := "bob", email := "bob@example.com", password_hash := HashStr.raw "garbage", created_at := 0, updated_at := 0, is_active := true }

/-- Sample registration payload. -/
def aliceCreate : CreateUser :=
  { username := "alice", email := "alice@example.com", password := "Str0ng#Pass" }

/-- The record `create` builds from `aliceCreate` with UUID 1 and clock
reads 7 then 8. -/
def aliceUser : User :=
  { id := 1, username := "alice", email := "alice@example.com", password_hash := HashStr.enc "s" "Str0ng#Pass", created_at := 7, updated_at := 8, is_active := true }

/-- Sample creation payload duplicating `bobUser`'s username and email. -/
def bobCreate : CreateUser :=
  { username := "bob", email := "bob@example.com", password := "Str0ng#Pass" }

/-- Sample registration request with an invalid email. -/
def alicePayloadBadEmail : RegisterRequest :=
  { username := "alice", email := "bad", password := "Str0ng#Pass" }

/-- Sample registration request that passes every validation. -/
def alicePayload : RegisterRequest :=
  { username := "alice", email := "alice@example.com", password := "Str0ng#Pass" }

/-- The record a successful registration of `alicePayload` stores, with salt
"s", UUID 1 and repository clock reads 3 then 4. -/
def aliceRegUser : User :=
  { id := 1, username := "alice", email := "alice@example.com", password_hash := HashStr.enc "s" "Str0ng#Pass", created_at := 3, updated_at := 4, is_active := true }

/-! ## Helper lemmas -/

theorem hmGet_none_eraseKey (m : UserMap) (k : String) (h : hmGet m k = none) :
    eraseKey m k = m := by
  induction m with
  | nil => rfl
  | cons p rest ih =>
    obtain ⟨k0, v⟩ := p
    by_cases hk : k0 = k
    · simp [hmGet, hk] at h
    · simp only [hmGet, if_neg hk] at h
      simp [eraseKey, hk, ih h]

theorem find?_none_all_false {α} (l : List α) (p : α → Bool)
    (h : l.find? p = none) : ∀ x ∈ l, p x = false := by
  intro x hx
  have := List.find?_eq_none.mp h x hx
  simpa using this

theorem substring_of_mem_joinComma (s : String) (l : List String) (h : s ∈ l) :
    s.data <:+: (joinComma l).data := by
  induction l with
  | nil => cases h
  | cons x rest ih =>
    cases rest with
    | nil =>
      have hx : s = x := by simpa using h
      subst hx
      exact List.infix_rfl
    | cons y t =>
      rcases List.mem_cons.mp h with hx | hmem
      · subst hx
        exact ⟨[], (", " ++ joinComma (y :: t)).data, by simp [joinComma]⟩
      · obtain ⟨a, b, hab⟩ := ih hmem
        exact ⟨(x ++ ", ").data ++ a, b, by simp [joinComma, hab]⟩

theorem infix_append_string (s pre t : String) (h : s.data <:+: t.data) :
    s.data <:+: (pre ++ t).data := by
  obtain ⟨a, b, hab⟩ := h
  exact ⟨pre.data ++ a, b, by simp [hab]⟩

/-! ## Claim theorems -/

/-- C10: the lookup operations `find_by_email`, `find_by_username` and
`find_by_id` leave the stored user map unchanged, and the login flow never
modifies repository state for any input. -/
theorem lookups_and_login_preserve_state (users : UserMap) (e un : String)
    (id : Nat) (payload : LoginRequest) (secret : String) (now : Int) :
    (find_by_email users e).1 = users ∧
    (find_by_username users un).1 = users ∧
    (find_by_id users id).1 = users ∧
    (login_handler users payload secret now).1 = users := by
  refine ⟨rfl, rfl, rfl, ?_⟩
  unfold login_handler
  cases h : (find_by_username users payload.username).2 with
  | none => rfl
  | some user =>
    cases hv : verify_password user.password_hash payload.password with
    | error err => simp [hv]
    | ok b => cases b <;> simp [hv]

/-- C2: an unknown username and a wrong password for an existing username
both produce the very same `InvalidCredentials` error, and when the username
exists and the password verifies, login returns a token issued for that
user's identifier. -/
theorem login_invalid_credentials_uniform (users : UserMap)
    (payload : LoginRequest) (secret : String) (now : Int) :
    ((find_by_username users payload.username).2 = none →
      login_handler users payload secret now =
        (users, .error .InvalidCredentials)) ∧
    (∀ u, (find_by_username users payload.username).2 = some u →
      verify_password u.password_hash payload.password = .ok false →
      login_handler users payload secret now =
        (users, .error .InvalidCredentials)) ∧
    (∀ u, (find_by_username users payload.username).2 = some u →
      verify_password u.password_hash payload.password = .ok true →
      login_handler users payload secret now =
        (users, .ok { token := create_token (toString u.id) secret now })) := by
  refine ⟨?_, ?_, ?_⟩ <;> intros <;> simp_all [login_handler]

/-- C2 witness: on a one-user store, an unknown username and a wrong password
yield the same error, and the right password yields that user's token. -/
theorem login_invalid_credentials_uniform_witness :
    login_handler [("1", bobUser)] { username := "alice", password := "Str0ng#Pass" } "sec" 0 =
      ([("1", bobUser)], .error .InvalidCredentials) ∧
    login_handler [("1", bobUser)] { username := "bob", password := "WrongPass1!" } "sec" 0 =
      ([("1", bobUser)], .error .InvalidCredentials) ∧
    login_handler [("1", bobUser)] { username := "bob", password := "Str0ng#Pass" } "sec" 0 =
      ([("1", bobUser)], .ok { token := create_token (toString 1) "sec" 0 }) := by
  refine ⟨?_, ?_, ?_⟩
  · exact (login_invalid_credentials_uniform _ _ _ _).1 (by decide)
  · exact (login_invalid_credentials_uniform _ _ _ _).2.1 bobUser (by decide) (by decide)
  · exact (login_invalid_credentials_uniform _ _ _ _).2.2 bobUser (by decide) (by decide)

/-- C3 counterexample: with a stored user whose encoded hash is malformed,
login returns `InternalError` (HTTP 500), while a wrong password on a
well-formed hash returns `InvalidCredentials` (HTTP 401) — the two
user-facing outcomes are not the same, contrary to the claim. -/
theorem login_verify_error_cex :
    (login_handler [("1", bobUserBadHash)] { username := "bob", password := "Str0ng#Pass" } "sec" 0).2 =
      .error .InternalError ∧
    (login_handler [("1", bobUser)] { username := "bob", password := "WrongPass1!" } "sec" 0).2 =
      .error .InvalidCredentials ∧
    AuthError.InternalError ≠ AuthError.InvalidCredentials ∧
    statusCode .InternalError = 500 ∧
    statusCode .InvalidCredentials = 401 := by
  refine ⟨by decide, by decide, by decide, rfl, rfl⟩

/-- C3 amended: when password verification itself errors during login, the
handler maps the error to `InternalError` (HTTP 500), an outcome distinct
from the `InvalidCredentials` (HTTP 401) produced by a non-matching
password. -/
theorem login_verify_error_internal (users : UserMap) (payload : LoginRequest)
    (secret : String) (now : Int) (u : User) (err : HashError)
    (hu : (find_by_username users payload.username).2 = some u)
    (hv : verify_password u.password_hash payload.password = .error err) :
    login_handler users payload secret now = (users, .error .InternalError) ∧
    AuthError.InternalError ≠ AuthError.InvalidCredentials ∧
    statusCode AuthError.InternalError = 500 ∧
    statusCode AuthError.InvalidCredentials = 401 := by
  refine ⟨?_, by decide, rfl, rfl⟩
  simp [login_handler, hu, hv]

/-- C3 amended witness: the malformed-hash store instantiates the amended
theorem. -/
theorem login_verify_error_internal_witness :
    login_handler [("1", bobUserBadHash)] { username := "bob", password := "Str0ng#Pass" } "sec" 0 =
      ([("1", bobUserBadHash)], .error .InternalError) := by
  exact (login_verify_error_internal _ _ "sec" 0 bobUserBadHash .parseError
    (by decide) (by decide)).1

/-- C7: a just-issued token verifies under the same secret at issuance time
and carries the issued subject and an expiry of exactly issued-at plus 24
hours; a different secret fails verification; any time past the 24-hour
window yields the expired outcome. -/
theorem token_round_trip (subject secret : String) (now : Int) :
    validate_token (create_token subject secret now) secret now =
      .ok { sub := subject, exp := now + 24 * 3600, iat := now } ∧
    (create_token subject secret now).claims.sub = subject ∧
    (create_token subject secret now).claims.exp =
      (create_token subject secret now).claims.iat + 24 * 3600 ∧
    (∀ secret2, secret2 ≠ secret →
      validate_token (create_token subject secret now) secret2 now =
        .error .invalidSignature) ∧
    (∀ t : Int, (create_token subject secret now).claims.exp < t →
      validate_token (create_token subject secret now) secret t =
        .error .expiredSignature) := by
  refine ⟨?_, rfl, rfl, ?_, ?_⟩
  · simp [create_token, validate_token]
  · intro secret2 hne
    simp [create_token, validate_token, Prod.ext_iff, Ne.symm hne]
  · intro t ht
    simp only [create_token] at ht
    simp [create_token, validate_token]
    omega

/-- C7 witness: concrete round trip at subject "42", secret "sec", time 0. -/
theorem token_round_trip_witness :
    validate_token (create_token "42" "sec" 0) "sec" 0 =
      .ok { sub := "42", exp := 0 + 24 * 3600, iat := 0 } ∧
    validate_token (create_token "42" "sec" 0) "other" 0 =
      .error .invalidSignature ∧
    validate_token (create_token "42" "sec" 0) "sec" 86401 =
      .error .expiredSignature := by
  refine ⟨(token_round_trip "42" "sec" 0).1, ?_, ?_⟩
  · exact (token_round_trip "42" "sec" 0).2.2.2.1 "other" (by decide)
  · exact (token_round_trip "42" "sec" 0).2.2.2.2 86401 (by decide)

/-- C8: under the symbolic argon2 model, a hash verifies its own password,
fails every other password, and two hashes of the same password under
distinct salts are distinct encoded values that both verify. -/
theorem password_hash_round_trip (p p2 s1 s2 : String) :
    verify_password (hash_password p s1) p = .ok true ∧
    (p2 ≠ p → verify_password (hash_password p s1) p2 = .ok false) ∧
    (s1 ≠ s2 →
      hash_password p s1 ≠ hash_password p s2 ∧
      verify_password (hash_password p s1) p = .ok true ∧
      verify_password (hash_password p s2) p = .ok true) := by
  refine ⟨?_, ?_, ?_⟩
  · simp [hash_password, verify_password]
  · intro hne
    simp only [hash_password, verify_password]
    simp [beq_eq_false_iff_ne, Ne.symm hne]
  · intro hne
    refine ⟨?_, by simp [hash_password, verify_password],
      by simp [hash_password, verify_password]⟩
    simp [hash_password, hne]

/-- C8 witness: concrete hashes of "Str0ng#Pass" under two salts. -/
theorem password_hash_round_trip_witness :
    verify_password (hash_password "Str0ng#Pass" "salt1") "Str0ng#Pass" = .ok true ∧
    verify_password (hash_password "Str0ng#Pass" "salt1") "WrongPass1!" = .ok false ∧
    hash_password "Str0ng#Pass" "salt1" ≠ hash_password "Str0ng#Pass" "salt2" ∧
    verify_password (hash_password "Str0ng#Pass" "salt2") "Str0ng#Pass" = .ok true := by
  refine ⟨(password_hash_round_trip "Str0ng#Pass" "x" "salt1" "salt2").1, ?_, ?_, ?_⟩
  · exact (password_hash_round_trip "Str0ng#Pass" "WrongPass1!" "salt1" "salt2").2.1
      (by decide)
  · exact ((password_hash_round_trip "Str0ng#Pass" "x" "salt1" "salt2").2.2
      (by decide)).1
  · exact ((password_hash_round_trip "Str0ng#Pass" "x" "salt1" "salt2").2.2
      (by decide)).2.2

/-- C9 counterexample: `created_at` and `updated_at` come from two SEPARATE
`Utc::now()` calls (memory_connection.rs lines 58-59); when the clock
advances between the two reads — here reads 5 then 6 — the stored
timestamps differ, refuting the claimed "both set to the current time
(hence equal to each other)". -/
theorem memory_create_timestamps_cex :
    (create [] aliceCreate (HashStr.enc "s" "Str0ng#Pass") 1 5 6).2.created_at = 5 ∧
    (create [] aliceCreate (HashStr.enc "s" "Str0ng#Pass") 1 5 6).2.updated_at = 6 ∧
    (create [] aliceCreate (HashStr.enc "s" "Str0ng#Pass") 1 5 6).2.created_at ≠
      (create [] aliceCreate (HashStr.enc "s" "Str0ng#Pass") 1 5 6).2.updated_at := by
  refine ⟨rfl, rfl, by decide⟩

/-- C9 amended: a successful `create` on the in-memory repository, given a
UUID draw not already bound in the store, returns a user carrying that fresh
identifier, `created_at` set by the first `Utc::now()` read and `updated_at`
by the second (the two reads need not be equal), an active flag of true, and
persists the record so `find_by_id` retrieves it. -/
theorem memory_create_spec (users : UserMap) (cu : CreateUser) (h : HashStr)
    (id : Nat) (now_c now_u : Int)
    (hfresh : hmGet users (toString id) = none) :
    (find_by_id users id).2 = none ∧
    (create users cu h id now_c now_u).2.id = id ∧
    (create users cu h id now_c now_u).2.username = cu.username ∧
    (create users cu h id now_c now_u).2.email = cu.email ∧
    (create users cu h id now_c now_u).2.created_at = now_c ∧
    (create users cu h id now_c now_u).2.updated_at = now_u ∧
    (create users cu h id now_c now_u).2.is_active = true ∧
    (find_by_id (create users cu h id now_c now_u).1 id).2 =
      some (create users cu h id now_c now_u).2 := by
  refine ⟨hfresh, rfl, rfl, rfl, rfl, rfl, rfl, ?_⟩
  simp [create, find_by_id, hmInsert, hmGet]

/-- C9 witness: creating the first user in an empty store, with clock reads
7 then 8. -/
theorem memory_create_spec_witness :
    hmGet ([] : UserMap) (toString 1) = none ∧
    (find_by_id ([] : UserMap) 1).2 = none ∧
    (create [] aliceCreate (HashStr.enc "s" "Str0ng#Pass") 1 7 8).2 = aliceUser ∧
    (find_by_id (create [] aliceCreate (HashStr.enc "s" "Str0ng#Pass") 1 7 8).1 1).2 =
      some aliceUser := by
  refine ⟨by decide, ?_, by decide, ?_⟩
  · exact (memory_create_spec [] aliceCreate (HashStr.enc "s" "Str0ng#Pass") 1 7 8
      (by decide)).1
  · have h9 := (memory_create_spec [] aliceCreate (HashStr.enc "s" "Str0ng#Pass") 1 7 8
      (by decide)).2.2.2.2.2.2.2
    have he : (create [] aliceCreate (HashStr.enc "s" "Str0ng#Pass") 1 7 8).2 = aliceUser := by
      decide
    rw [he] at h9
    exact h9

/-- C4 counterexample: the in-memory `create` performs no uniqueness check —
two raw `create` calls with the same username and email both insert, leaving
a store in which two distinct users share a username and an email. -/
theorem memory_create_allows_duplicates_cex :
    let s := (create (create [] bobCreate (HashStr.enc "s1" "Str0ng#Pass") 1 0 0).1
      bobCreate (HashStr.enc "s2" "Str0ng#Pass") 2 0 0).1
    noDupUsersB s = false ∧
    (hmGet s "1").isSome = true ∧
    (hmGet s "2").isSome = true ∧
    hmGet s "1" ≠ hmGet s "2" ∧
    (hmGet s "1").map User.username = (hmGet s "2").map User.username ∧
    (hmGet s "1").map User.email = (hmGet s "2").map User.email := by
  decide

/-- C4 amended: uniqueness is enforced by the register flow, not by the
repository: `register_handler` looks up the email and username before
calling `create`, so it preserves the no-duplicate invariant of the stored
user set (the raw repository `create` does not check). -/
theorem register_preserves_unique_users (users : UserMap)
    (payload : RegisterRequest) (salt : String) (id : Nat)
    (now_c now_u now_t : Int) (secret : String)
    (hinv : noDupUsersB users = true)
    (hfresh : hmGet users (toString id) = none) :
    noDupUsersB (register_handler users payload salt id now_c now_u now_t secret).1 = true := by
  unfold register_handler
  cases hve : validate_email payload.email with
  | error e => exact hinv
  | ok uv =>
  cases hvu : validate_username payload.username with
  | error e => exact hinv
  | ok uu =>
  cases hvp : validate_password payload.password with
  | error e => exact hinv
  | ok up =>
  by_cases hE : (find_by_email users payload.email).2 = none
  case neg =>
    have hs := Option.ne_none_iff_isSome.mp hE
    simp only [hs, if_true]
    exact hinv
  case pos =>
  by_cases hU : (find_by_username users payload.username).2 = none
  case neg =>
    have hs := Option.ne_none_iff_isSome.mp hU
    simp only [hE, Option.isSome_none, Bool.false_eq_true, if_false, hs, if_true]
    exact hinv
  case pos =>
    simp only [hE, hU, Option.isSome_none, Bool.false_eq_true, if_false]
    simp only [create, hmInsert, hmGet_none_eraseKey users (toString id) hfresh]
    simp only [find_by_email] at hE
    simp only [find_by_username] at hU
    have hemail := find?_none_all_false _ _ hE
    have huser := find?_none_all_false _ _ hU
    simp only [noDupUsersB, hinv, Bool.and_true, List.all_eq_true]
    intro q hq
    have hqv : q.2 ∈ hmValues users := List.mem_map_of_mem Prod.snd hq
    have h1 := huser q.2 hqv
    have h2 := hemail q.2 hqv
    simp only [bne, h1, h2]
    rfl

/-- C4 amended witness: registering alice into the singleton bob store keeps
the invariant. -/
theorem register_preserves_unique_users_witness :
    noDupUsersB [("1", bobUser)] = true ∧
    hmGet [("1", bobUser)] (toString 2) = none ∧
    noDupUsersB (register_handler [("1", bobUser)] alicePayload "s" 2 0 0 0 "sec").1 = true := by
  refine ⟨by decide, by decide, ?_⟩
  exact register_preserves_unique_users [("1", bobUser)] alicePayload "s" 2 0 0 0 "sec"
    (by decide) (by decide)

/-- C1: the register flow short-circuits in order — email validation,
username validation, password validation, each returning its own error
immediately; then the email-existence check and the username-existence check,
each failing with `UserAlreadyExists`; and only when all pass does it hash,
create the user, and return a token issued for the new user's identifier. -/
theorem register_flow_order (users : UserMap) (payload : RegisterRequest)
    (salt : String) (id : Nat) (now_c now_u now_t : Int) (secret : String) :
    (∀ e, validate_email payload.email = .error e →
      register_handler users payload salt id now_c now_u now_t secret = (users, .error e)) ∧
    (∀ e, validate_email payload.email = .ok () →
      validate_username payload.username = .error e →
      register_handler users payload salt id now_c now_u now_t secret = (users, .error e)) ∧
    (∀ e, validate_email payload.email = .ok () →
      validate_username payload.username = .ok () →
      validate_password payload.password = .error e →
      register_handler users payload salt id now_c now_u now_t secret = (users, .error e)) ∧
    (validate_email payload.email = .ok () →
      validate_username payload.username = .ok () →
      validate_password payload.password = .ok () →
      (find_by_email users payload.email).2.isSome = true →
      register_handler users payload salt id now_c now_u now_t secret =
        (users, .error .UserAlreadyExists)) ∧
    (validate_email payload.email = .ok () →
      validate_username payload.username = .ok () →
      validate_password payload.password = .ok () →
      (find_by_email users payload.email).2 = none →
      (find_by_username users payload.username).2.isSome = true →
      register_handler users payload salt id now_c now_u now_t secret =
        (users, .error .UserAlreadyExists)) ∧
    (validate_email payload.email = .ok () →
      validate_username payload.username = .ok () →
      validate_password payload.password = .ok () →
      (find_by_email users payload.email).2 = none →
      (find_by_username users payload.username).2 = none →
      register_handler users payload salt id now_c now_u now_t secret =
        (hmInsert users (toString id)
          { id := id, username := payload.username, email := payload.email, password_hash := hash_password payload.password salt, created_at := now_c, updated_at := now_u, is_active := true },
         .ok { token := create_token (toString id) secret now_t })) := by
  refine ⟨?_, ?_, ?_, ?_, ?_, ?_⟩ <;> intros <;>
    simp_all [register_handler, create, hmInsert]

/-- C1 witness: a failing email validation short-circuits registration on the
empty store, and a fully valid registration stores the user and returns the
token for the fresh identifier. -/
theorem register_flow_order_witness :
    validate_email "bad" = .error (.ValidationError "Invalid email format!") ∧
    register_handler [] alicePayloadBadEmail "s" 1 0 0 0 "sec" =
      ([], .error (.ValidationError "Invalid email format!")) ∧
    validate_email "alice@example.com" = .ok () ∧
    validate_username "alice" = .ok () ∧
    validate_password "Str0ng#Pass" = .ok () ∧
    (find_by_email [] "alice@example.com").2 = none ∧
    (find_by_username [] "alice").2 = none ∧
    register_handler [] alicePayload "s" 1 3 4 5 "sec" =
      (hmInsert [] (toString 1) aliceRegUser,
       .ok { token := create_token (toString 1) "sec" 5 }) := by
  refine ⟨by decide, ?_, by decide, by decide, by decide, rfl, rfl, ?_⟩
  · exact (register_flow_order [] alicePayloadBadEmail "s" 1 0 0 0 "sec").1
      (.ValidationError "Invalid email format!") (by decide)
  · exact (register_flow_order [] alicePayload "s" 1 3 4 5 "sec").2.2.2.2.2
      (by decide) (by decide) (by decide) rfl rfl

theorem contains_iff_mem_chars (l : List Char) (c : Char) :
    l.contains c = true ↔ c ∈ l := by
  simp [List.contains]

theorem validate_passwordWith_ok_iff (isUp isLow isNum : Char → Bool) (p : String) :
    validate_passwordWith isUp isLow isNum p = .ok () ↔
      passwordErrorsWith isUp isLow isNum p = [] := by
  unfold validate_passwordWith
  by_cases h : passwordErrorsWith isUp isLow isNum p = []
  · simp [h]
  · have hne : (passwordErrorsWith isUp isLow isNum p).isEmpty = false := by
      simpa [List.isEmpty_iff] using h
    simp [hne, h]

theorem passwordErrorsWith_nil_iff (isUp isLow isNum : Char → Bool) (p : String) :
    passwordErrorsWith isUp isLow isNum p = [] ↔
      (8 ≤ rustStrLen p ∧ p.data.any isUp = true ∧
       p.data.any isLow = true ∧ p.data.any isNum = true ∧
       p.data.any (fun c => specialChars.data.contains c) = true) := by
  unfold passwordErrorsWith
  split_ifs <;> simp_all [Nat.not_lt, Nat.lt_iff_add_one_le]

/-- C5 counterexample: the seven-character password "éééAa1!" occupies ten
UTF-8 bytes, so the source's byte-counting length check accepts it, while the
claim's rules (at least 8 characters) reject it. -/
theorem validate_password_char_count_cex :
    validate_password "éééAa1!" = .ok () ∧
    ("éééAa1!").data.length = 7 ∧
    rustStrLen "éééAa1!" = 10 ∧
    ¬ claimPasswordOk "éééAa1!" := by
  refine ⟨by decide, by decide, by decide, by decide⟩

/-- C5 amended: for every instantiation of the external character-class
primitives — hence for the Rust standard library's real Unicode-wide
`char::is_uppercase`, `is_lowercase` and `is_numeric` — `validate_password`
succeeds exactly on strings of at least 8 UTF-8 BYTES (the source checks
`str::len`, a byte count, not a character count) that contain at least one
character of the uppercase class, one of the lowercase class, one of the
numeric class, and one character of the fixed special set. -/
theorem validate_password_iff_byte_rules (isUp isLow isNum : Char → Bool)
    (p : String) :
    validate_passwordWith isUp isLow isNum p = .ok () ↔
      (8 ≤ rustStrLen p ∧
       (∃ c ∈ p.data, isUp c = true) ∧
       (∃ c ∈ p.data, isLow c = true) ∧
       (∃ c ∈ p.data, isNum c = true) ∧
       (∃ c ∈ p.data, c ∈ specialChars.data)) := by
  rw [validate_passwordWith_ok_iff, passwordErrorsWith_nil_iff]
  simp only [List.any_eq_true, contains_iff_mem_chars]

/-- C6: for every instantiation of the external character-class primitives —
hence for the real Unicode tables — whenever the password validation fails,
its single error message names every unmet rule: each rule the program's own
checks find violated contributes its description as a substring of the
message. -/
theorem validate_password_error_reports_all (isUp isLow isNum : Char → Bool)
    (p : String) (msg : String)
    (h : validate_passwordWith isUp isLow isNum p = .error (.ValidationError msg)) :
    (rustStrLen p < 8 → ("at least 8 characters").data <:+: msg.data) ∧
    (p.data.any isUp = false →
      ("at least one uppercase letter (A-Z)").data <:+: msg.data) ∧
    (p.data.any isLow = false →
      ("at least one lowercase letter (a-z)").data <:+: msg.data) ∧
    (p.data.any isNum = false →
      ("at least one number (0-9)").data <:+: msg.data) ∧
    (p.data.any (fun c => specialChars.data.contains c) = false →
      ("at least one special character").data <:+: msg.data) := by
  have hmsg : msg = "Password must contain: " ++
      joinComma (passwordErrorsWith isUp isLow isNum p) := by
    unfold validate_passwordWith at h
    by_cases hn : passwordErrorsWith isUp isLow isNum p = []
    · simp [hn] at h
    · have hne : (passwordErrorsWith isUp isLow isNum p).isEmpty = false := by
        simpa [List.isEmpty_iff] using hn
      simp only [hne, Bool.not_false, if_true, Except.error.injEq,
        AuthError.ValidationError.injEq] at h
      exact h.symm
  subst hmsg
  refine ⟨?_, ?_, ?_, ?_, ?_⟩ <;> intro hr
  · have hm : "at least 8 characters" ∈ passwordErrorsWith isUp isLow isNum p := by
      simp [passwordErrorsWith, hr]
    exact infix_append_string _ _ _ (substring_of_mem_joinComma _ _ hm)
  · have hm : "at least one uppercase letter (A-Z)" ∈ passwordErrorsWith isUp isLow isNum p := by
      simp [passwordErrorsWith, hr]
    exact infix_append_string _ _ _ (substring_of_mem_joinComma _ _ hm)
  · have hm : "at least one lowercase letter (a-z)" ∈ passwordErrorsWith isUp isLow isNum p := by
      simp [passwordErrorsWith, hr]
    exact infix_append_string _ _ _ (substring_of_mem_joinComma _ _ hm)
  · have hm : "at least one number (0-9)" ∈ passwordErrorsWith isUp isLow isNum p := by
      simp [passwordErrorsWith, hr]
    exact infix_append_string _ _ _ (substring_of_mem_joinComma _ _ hm)
  · have hm : "at least one special character" ∈ passwordErrorsWith isUp isLow isNum p := by
      simp [passwordErrorsWith, hr]
      intro x hx
      have hx2 := List.any_eq_false.mp hr x hx
      simpa [contains_iff_mem_chars] using hx2
    exact infix_append_string _ _ _ (substring_of_mem_joinComma _ _ hm)

/-- C6 witness: for "weak", the single message reports the length, uppercase,
digit, and special-character failures together. -/
theorem validate_password_error_reports_all_witness :
    let M := "Password must contain: at least 8 characters, at least one uppercase letter (A-Z), at least one number (0-9), at least one special character"
    validate_password "weak" = .error (.ValidationError M) ∧
    ("at least 8 characters").data <:+: M.data ∧
    ("at least one uppercase letter (A-Z)").data <:+: M.data ∧
    ("at least one number (0-9)").data <:+: M.data ∧
    ("at least one special character").data <:+: M.data := by
  intro M
  refine ⟨by decide, ?_, ?_, ?_, ?_⟩
  · exact (validate_password_error_reports_all Char.isUpper Char.isLower Char.isDigit
      "weak" M (by decide)).1 (by decide)
  · exact (validate_password_error_reports_all Char.isUpper Char.isLower Char.isDigit
      "weak" M (by decide)).2.1 (by decide)
  · exact (validate_password_error_reports_all Char.isUpper Char.isLower Char.isDigit
      "weak" M (by decide)).2.2.2.1 (by decide)
  · exact (validate_password_error_reports_all Char.isUpper Char.isLower Char.isDigit
      "weak" M (by decide)).2.2.2.2 (by decide)

end AuthRust
